import Mathlib

/-!
Shallow embedding of the stock-signal scoring engine of
`src/frontend/src/app/api/stock-predictions/route.ts` (class
`StockPredictionService` and the `GET` handler), together with theorems
settling the specification claims about it.

JavaScript numbers are embedded as exact rationals; the single place where
the source can produce `NaN` (division by a zero length inside
`analyzeSentiment` / `calculateStandardDeviation`) is embedded by the
two-constructor type `JSNum` below.  Network effects (the Guardian news
fetch and the technical-data lookup) are embedded as explicit oracle
functions threaded through the orchestration code, and every news fetch is
recorded in a call log so that fetch-count claims are statable.
-/

namespace StockPred

/-- A JavaScript number that is either a genuine (rational) value or `NaN`.
Only `NaN` needs a constructor of its own here: the embedded call sites can
produce `NaN` solely through `0/0` (and `sqrt NaN`), never an infinity,
because every division in the source divides by a list length whose being
zero forces the numerator (a sum over the same empty list) to be zero. -/
inductive JSNum where
  | nan : JSNum
  | val : ℚ → JSNum
deriving DecidableEq

/-- JS division `a / b` at the embedded call sites: `b = 0` yields `NaN`
(the numerator is always 0 there, see `JSNum`). -/
def jdiv (a b : ℚ) : JSNum :=
  if b = 0 then JSNum.nan else JSNum.val (a / b)

/-- JS division where the numerator may already be `NaN` (propagates). -/
def jdivJ : JSNum → ℚ → JSNum
  | JSNum.nan, _ => JSNum.nan
  | JSNum.val a, b => jdiv a b

/-- JS `x || 0` on a number: `NaN` is falsy and becomes `0`; the value `0`
is also falsy and becomes `0`, which coincides with itself; every other
value is returned unchanged. -/
def jorZero : JSNum → ℚ
  | JSNum.nan => 0
  | JSNum.val q => q

/-- `Math.pow (v - avg) 2` where `avg` may be `NaN` (propagates). -/
def jsubSq (v : ℚ) : JSNum → JSNum
  | JSNum.nan => JSNum.nan
  | JSNum.val a => JSNum.val ((v - a) ^ 2)

/-- JS `reduce((a, b) => a + b, 0)` over a list of numbers that may contain
`NaN` (propagates). -/
def jsumList : List JSNum → JSNum
  | [] => JSNum.val 0
  | JSNum.nan :: _ => JSNum.nan
  | JSNum.val a :: rest =>
    match jsumList rest with
    | JSNum.nan => JSNum.nan
    | JSNum.val s => JSNum.val (a + s)

/-- Rational stand-in for `Math.sqrt` on a non-negative rational: exact on
perfect-square rationals (in particular `qsqrt 0 = 0`), approximate
elsewhere (the real square root of a non-square rational is irrational, so
no rational function can be exact; no claim below inspects the square root
anywhere except at `0` and at `NaN`). -/
def qsqrt (q : ℚ) : ℚ :=
  (Nat.sqrt q.num.toNat : ℚ) / (Nat.sqrt q.den : ℚ)

/-- JS `Math.sqrt`: `NaN` on `NaN` and on negative inputs. -/
def jsqrt : JSNum → JSNum
  | JSNum.nan => JSNum.nan
  | JSNum.val q => if q < 0 then JSNum.nan else JSNum.val (qsqrt q)

/-- JS `reduce((a, b) => a + b, 0)` over plain rationals. -/
def qsum (l : List ℚ) : ℚ :=
  l.foldl (fun a b => a + b) 0

/-- One ingested Guardian article, as produced by `fetchGuardianNews`. -/
structure NewsItem where
  title : String
  description : String
  publishedAt : String
  url : String
deriving DecidableEq

/-- The fixed positive-word list of `analyzeSentiment`. -/
def positiveWords : List String :=
  ["growth", "profit", "increase", "rise", "gain", "success", "strong",
   "beat", "exceed", "up"]

/-- The fixed negative-word list of `analyzeSentiment`. -/
def negativeWords : List String :=
  ["decline", "loss", "fall", "drop", "weak", "miss", "concern", "risk",
   "uncertainty", "down"]

/-- Boolean list-of-characters substring containment used to embed JS
`String.includes` (substring containment, not word-boundary matching). -/
def charsContain (w : List Char) : List Char → Bool
  | [] => w.isEmpty
  | c :: rest => w.isPrefixOf (c :: rest) || charsContain w rest

/-- JS `text.includes(word)`. -/
def strIncludes (text word : String) : Bool :=
  charsContain word.data text.data

/-- Per-item sentiment score of `analyzeSentiment`: lower-cased
concatenation of title and description, `+1` per positive word contained,
`-1` per negative word contained, normalized by
`Math.max(-1, Math.min(1, score / 5))`. -/
def itemScore (item : NewsItem) : ℚ :=
  let text := (item.title ++ " " ++ item.description).toLower
  let score : Int :=
    negativeWords.foldl
      (fun sc w => if strIncludes text w then sc - 1 else sc)
      (positiveWords.foldl
        (fun sc w => if strIncludes text w then sc + 1 else sc) 0)
  max (-1) (min 1 ((score : ℚ) / 5))

/-- `calculateStandardDeviation` from the source: arithmetic mean, mean of
squared deviations, square root; on an empty list the mean is `0/0 = NaN`
and the result is `NaN` (there is no guard in the source). -/
def calculateStandardDeviation (values : List ℚ) : JSNum :=
  let avg := jdiv (qsum values) (values.length : ℚ)
  let squareDiffs := values.map (fun value => jsubSq value avg)
  let avgSquareDiff := jdivJ (jsumList squareDiffs) (values.length : ℚ)
  jsqrt avgSquareDiff

/-- The sentiment summary produced by `analyzeSentiment`.  The fields
guarded by `|| 0` in the source are plain rationals; `sentimentVolatility`
is unguarded in the source and keeps its possible `NaN`. -/
structure SentimentSummary where
  avgSentiment : ℚ
  sentimentVolatility : JSNum
  positiveNewsRatio : ℚ
  negativeNewsRatio : ℚ
  newsVolume : ℕ
deriving DecidableEq

/-- `analyzeSentiment` from the source. -/
def analyzeSentiment (newsItems : List NewsItem) : SentimentSummary :=
  let sentiments := newsItems.map itemScore
  { avgSentiment := jorZero (jdiv (qsum sentiments) (sentiments.length : ℚ))
    sentimentVolatility := calculateStandardDeviation sentiments
    positiveNewsRatio :=
      jorZero (jdiv ((sentiments.filter (fun s => s > 1/10)).length : ℚ)
        (sentiments.length : ℚ))
    negativeNewsRatio :=
      jorZero (jdiv ((sentiments.filter (fun s => s < -(1/10))).length : ℚ)
        (sentiments.length : ℚ))
    newsVolume := newsItems.length }

/-- A per-symbol technical snapshot (`generateMockTechnicalData` shape). -/
structure TechSnapshot where
  currentPrice : ℚ
  priceChange1d : ℚ
  volumeRatio : ℚ
  rsi : ℚ
  macd : ℚ
  bbPosition : ℚ
  sma20Ratio : ℚ
  sma50Ratio : ℚ
  volatility : ℚ
deriving DecidableEq

/-- The three trading actions. -/
inductive Action where
  | BUY : Action
  | HOLD : Action
  | SELL : Action
deriving DecidableEq

/-- What `makeSimplePrediction` returns. -/
structure FuseResult where
  action : Action
  confidence : ℚ
  reasoning : List String
deriving DecidableEq

/-- JS `Math.sign` on a rational. -/
def qsign (q : ℚ) : ℚ :=
  if q > 0 then 1 else if q < 0 then -1 else 0

/-- JS `Math.round(q * 100) / 100` (round half up; every confidence the
engine rounds is positive, where `Math.round` is `floor (x + 1/2)`). -/
def round2 (q : ℚ) : ℚ :=
  ((Int.floor (q * 100 + 1/2) : ℤ) : ℚ) / 100

/-- Sentiment factor of `makeSimplePrediction`, acting on the running
`(score, reasoning)` state exactly as the source's first `if` chain. -/
def sentimentStep (sentiment : SentimentSummary) (st : ℚ × List String) :
    ℚ × List String :=
  if sentiment.avgSentiment > 1/5 then
    (st.1 + 2, st.2 ++ ["Positive news sentiment"])
  else if sentiment.avgSentiment < -(1/5) then
    (st.1 - 2, st.2 ++ ["Negative news sentiment"])
  else st

/-- RSI factor of `makeSimplePrediction` (strict comparisons at 30/70). -/
def rsiStep (technical : TechSnapshot) (st : ℚ × List String) :
    ℚ × List String :=
  if technical.rsi < 30 then
    (st.1 + 2, st.2 ++ ["RSI indicates oversold condition"])
  else if technical.rsi > 70 then
    (st.1 - 2, st.2 ++ ["RSI indicates overbought condition"])
  else st

/-- MACD factor of `makeSimplePrediction`: a two-way branch, the `else`
(bearish) arm taken for every `macd ≤ 0`, including `macd = 0`. -/
def macdStep (technical : TechSnapshot) (st : ℚ × List String) :
    ℚ × List String :=
  if technical.macd > 0 then
    (st.1 + 1, st.2 ++ ["MACD shows bullish momentum"])
  else
    (st.1 - 1, st.2 ++ ["MACD shows bearish momentum"])

/-- Price-momentum factor of `makeSimplePrediction`. -/
def priceStep (technical : TechSnapshot) (st : ℚ × List String) :
    ℚ × List String :=
  if technical.priceChange1d > 2 then
    (st.1 + 1, st.2 ++ ["Strong recent price momentum"])
  else if technical.priceChange1d < -2 then
    (st.1 - 1, st.2 ++ ["Weak recent price momentum"])
  else st

/-- Volume confirmation of `makeSimplePrediction`:
`score += Math.sign(score) * 0.5` when `volumeRatio > 1.5` (the reason is
appended even when the score is 0 and the amplification is a no-op). -/
def volumeStep (technical : TechSnapshot) (st : ℚ × List String) :
    ℚ × List String :=
  if technical.volumeRatio > 3/2 then
    (st.1 + qsign st.1 * (1/2), st.2 ++ ["High volume confirms trend"])
  else st

/-- The sequential score/reasoning accumulation of `makeSimplePrediction`,
in source order: sentiment, RSI, MACD, price momentum, volume. -/
def scoreReasons (sentiment : SentimentSummary) (technical : TechSnapshot) :
    ℚ × List String :=
  volumeStep technical (priceStep technical (macdStep technical
    (rsiStep technical (sentimentStep sentiment (0, [])))))

/-- The action/confidence decision of `makeSimplePrediction` (before the
2-decimal rounding of the confidence). -/
def decideAction (score : ℚ) : Action × ℚ :=
  if score ≥ 3 then
    (Action.BUY, min (9/10) (6/10 + (score - 3) * (1/10)))
  else if score ≤ -3 then
    (Action.SELL, min (9/10) (6/10 + |score + 3| * (1/10)))
  else
    (Action.HOLD, 1/2 + |score| * (1/20))

/-- `makeSimplePrediction` from the source: accumulate the score and the
reasons, decide the action, round the confidence to 2 decimal places, keep
the first 3 reasons (`reasoning.slice(0, 3)`). -/
def makeSimplePrediction (sentiment : SentimentSummary)
    (technical : TechSnapshot) : FuseResult :=
  let st := scoreReasons sentiment technical
  let ac := decideAction st.1
  { action := ac.1
    confidence := round2 ac.2
    reasoning := st.2.take 3 }

/-- Modelled from the spec: the sentiment contribution of §4.3 step 2. -/
def specSentScore (sentiment : SentimentSummary) : ℚ :=
  if sentiment.avgSentiment > 1/5 then 2
  else if sentiment.avgSentiment < -(1/5) then -2
  else 0

/-- Modelled from the spec: the reason appended by §4.3 step 2. -/
def specSentReasons (sentiment : SentimentSummary) : List String :=
  if sentiment.avgSentiment > 1/5 then ["Positive news sentiment"]
  else if sentiment.avgSentiment < -(1/5) then ["Negative news sentiment"]
  else []

/-- Modelled from the spec: the RSI contribution of §4.3 step 3. -/
def specRsiScore (technical : TechSnapshot) : ℚ :=
  if technical.rsi < 30 then 2 else if technical.rsi > 70 then -2 else 0

/-- Modelled from the spec: the reason appended by §4.3 step 3. -/
def specRsiReasons (technical : TechSnapshot) : List String :=
  if technical.rsi < 30 then ["RSI indicates oversold condition"]
  else if technical.rsi > 70 then ["RSI indicates overbought condition"]
  else []

/-- Modelled from the spec: the MACD contribution of §4.3 step 4. -/
def specMacdScore (technical : TechSnapshot) : ℚ :=
  if technical.macd > 0 then 1 else -1

/-- Modelled from the spec: the reason appended by §4.3 step 4. -/
def specMacdReasons (technical : TechSnapshot) : List String :=
  if technical.macd > 0 then ["MACD shows bullish momentum"]
  else ["MACD shows bearish momentum"]

/-- Modelled from the spec: the price-change contribution of §4.3 step 5. -/
def specPriceScore (technical : TechSnapshot) : ℚ :=
  if technical.priceChange1d > 2 then 1
  else if technical.priceChange1d < -2 then -1
  else 0

/-- Modelled from the spec: the reason appended by §4.3 step 5. -/
def specPriceReasons (technical : TechSnapshot) : List String :=
  if technical.priceChange1d > 2 then ["Strong recent price momentum"]
  else if technical.priceChange1d < -2 then ["Weak recent price momentum"]
  else []

/-- Modelled from the spec: the score after §4.3 steps 1–6 (sum of the four
factor contributions, then the volume amplification `sign(score) * 0.5`
when `volumeRatio > 1.5`). -/
def specScore (sentiment : SentimentSummary) (technical : TechSnapshot) : ℚ :=
  let base := specSentScore sentiment + specRsiScore technical +
    specMacdScore technical + specPriceScore technical
  if technical.volumeRatio > 3/2 then base + qsign base * (1/2) else base

/-- Modelled from the spec: the full ordered reason list of §4.3 steps 2–6
(sentiment, RSI, MACD, price momentum, volume — never re-sorted). -/
def specReasons (sentiment : SentimentSummary) (technical : TechSnapshot) :
    List String :=
  specSentReasons sentiment ++ specRsiReasons technical ++
    specMacdReasons technical ++ specPriceReasons technical ++
    (if technical.volumeRatio > 3/2 then ["High volume confirms trend"]
     else [])

/-- Modelled from the spec: §4.3 steps 7–8 — decide BUY/SELL/HOLD from the
score, cap/round the confidence, truncate the reasons to 3 entries. -/
def fuseSpec (sentiment : SentimentSummary) (technical : TechSnapshot) :
    FuseResult :=
  let score := specScore sentiment technical
  let reasons := specReasons sentiment technical
  if score ≥ 3 then
    { action := Action.BUY
      confidence := round2 (min (9/10) (6/10 + (score - 3) * (1/10)))
      reasoning := reasons.take 3 }
  else if score ≤ -3 then
    { action := Action.SELL
      confidence := round2 (min (9/10) (6/10 + |score + 3| * (1/10)))
      reasoning := reasons.take 3 }
  else
    { action := Action.HOLD
      confidence := round2 (1/2 + |score| * (1/20))
      reasoning := reasons.take 3 }

/-- The outbound capabilities of the service, embedded as oracles.
`news` abstracts `fetchGuardianNews` (a network call): its argument is the
`hours` lookback parameter, its `Except.error` carries the message of the
error thrown there (missing API key, or a non-OK Guardian response).
`tech` abstracts `getTechnicalIndicators`: `none` is the `null` it returns
when no snapshot can be produced. -/
structure Oracles where
  news : ℤ → Except String (List NewsItem)
  tech : String → Option TechSnapshot

/-- The per-symbol output object of `predictStock` (the fields the claims
are about; the timestamp, a wall-clock read, is outside the embedding). -/
structure Prediction where
  symbol : String
  prediction : Action
  confidence : ℚ
  reasoning : List String
  currentPrice : ℚ
  sentimentAnalysis : SentimentSummary
deriving DecidableEq

/-- One entry of the `predictions` array: a successful `Prediction`, or the
`{symbol, error}` marker `predictPortfolio` pushes for a failed symbol. -/
inductive PEntry where
  | ok : Prediction → PEntry
  | err : (symbol : String) → (error : String) → PEntry
deriving DecidableEq

/-- `predictStock` from the source, with the list of `hours` arguments of
the news fetches it performs as a second component.  The source calls
`fetchGuardianNews(24)` once, unconditionally and with the literal 24,
before anything else; a thrown error is caught, logged and rethrown, so it
propagates to the caller unchanged. -/
def predictStock (o : Oracles) (symbol : String) :
    Except String Prediction × List ℤ :=
  (match o.news 24 with
   | Except.error e => Except.error e
   | Except.ok news =>
     let sentimentData := analyzeSentiment news
     match o.tech symbol with
     | none =>
       Except.error ("Could not fetch technical data for " ++ symbol)
     | some techData =>
       let p := makeSimplePrediction sentimentData techData
       Except.ok
         { symbol := symbol
           prediction := p.action
           confidence := p.confidence
           reasoning := p.reasoning
           currentPrice := techData.currentPrice
           sentimentAnalysis := sentimentData },
   [24])

/-- The catch arm of `predictPortfolio`: a failed symbol becomes a
`{symbol, error: "Failed to predict: " + message}` marker. -/
def toEntry (symbol : String) : Except String Prediction → PEntry
  | Except.ok p => PEntry.ok p
  | Except.error m => PEntry.err symbol ("Failed to predict: " ++ m)

/-- `predictPortfolio` from the source: the sequential for-loop over the
symbols, each iteration pushing either the prediction or the error marker;
the second component concatenates the news-fetch logs in order. -/
def predictPortfolio (o : Oracles) : List String → List PEntry × List ℤ
  | [] => ([], [])
  | symbol :: rest =>
    let r := predictStock o symbol
    let tail := predictPortfolio o rest
    (toEntry symbol r.1 :: tail.1, r.2 ++ tail.2)

/-- JS truthiness of `!p.error`: error markers carry the non-empty string
`"Failed to predict: ..."`, so exactly the successful entries pass. -/
def entryIsOk : PEntry → Bool
  | PEntry.ok _ => true
  | PEntry.err _ _ => false

/-- JS `!p.error && p.prediction === a`. -/
def entryHasAction (a : Action) : PEntry → Bool
  | PEntry.ok p => p.prediction = a
  | PEntry.err _ _ => false

/-- JS truthiness of `!p.error && p.confidence` (a confidence of exactly 0
would be falsy and excluded). -/
def entryHasConfidence : PEntry → Bool
  | PEntry.ok p => p.confidence ≠ 0
  | PEntry.err _ _ => false

/-- JS `p.confidence || 0` inside the averaging reduce. -/
def entryConfidence : PEntry → ℚ
  | PEntry.ok p => p.confidence
  | PEntry.err _ _ => 0

/-- The successful predictions of an entry list, in order. -/
def okPreds (entries : List PEntry) : List Prediction :=
  entries.filterMap (fun e =>
    match e with
    | PEntry.ok p => some p
    | PEntry.err _ _ => none)

/-- The `summary` object computed inside the `GET` handler. -/
structure Summary where
  totalSymbols : ℕ
  buySignals : ℕ
  sellSignals : ℕ
  holdSignals : ℕ
  avgConfidence : ℚ
deriving DecidableEq

/-- The summary-statistics block of `GET`: `totalSymbols` is the length of
the parsed symbol list, the three signal counts filter on
`!p.error && p.prediction === ...`, and `avgConfidence` is the
`|| 0`-guarded mean over the entries with truthy confidence. -/
def summarize (symbols : List String) (predictions : List PEntry) :
    Summary :=
  let confEntries := predictions.filter entryHasConfidence
  { totalSymbols := symbols.length
    buySignals := (predictions.filter (entryHasAction Action.BUY)).length
    sellSignals := (predictions.filter (entryHasAction Action.SELL)).length
    holdSignals := (predictions.filter (entryHasAction Action.HOLD)).length
    avgConfidence :=
      jorZero (jdiv (qsum (confEntries.map entryConfidence))
        (confEntries.length : ℚ)) }

/-- `searchParams.get("symbols")?.split(",") || ["AAPL", "GOOGL", "MSFT"]`:
only an absent parameter falls back to the default (a present empty string
splits to `[""]`, a non-empty array, hence truthy). -/
def parseSymbolsParam : Option String → List String
  | none => ["AAPL", "GOOGL", "MSFT"]
  | some s => s.splitOn ","

/-- JS `parseInt(s, 10)`: optional sign, then leading decimal digits;
`none` embeds the `NaN` returned when no digit is found. -/
def parseIntJS (s : String) : Option ℤ :=
  let chars := s.data
  let signed : ℤ × List Char :=
    match chars with
    | '-' :: rest => (-1, rest)
    | '+' :: rest => (1, rest)
    | l => (1, l)
  let digits := signed.2.takeWhile (fun c => c.isDigit)
  if digits.isEmpty then none
  else
    some (signed.1 *
      (digits.foldl (fun acc c => acc * 10 + ((c.toNat : ℤ) - 48)) 0))

/-- `parseInt(searchParams.get("hours") || "24", 10)`: an absent or empty
parameter falls back to the string `"24"`.  The result is bound in the
handler but never used afterwards. -/
def parseHoursParam (hp : Option String) : Option ℤ :=
  parseIntJS (match hp with
    | none => "24"
    | some s => if s = "" then "24" else s)

/-- The response body of a successful `GET` (the timestamps are wall-clock
reads, outside the embedding). -/
structure GETResponse where
  predictions : List PEntry
  summary : Summary
  disclaimer : String
deriving DecidableEq

/-- The fixed disclaimer string of the `GET` response. -/
def disclaimerText : String :=
  "This is for educational purposes only. Not financial advice. " ++
  "Past performance does not guarantee future results."

/-- The `GET` handler from the source, over the two query parameters it
reads (`none` = parameter absent) and the oracles, with the news-fetch log
as second component.  There is no request-validation branch: the handler
parses the parameters (the parsed hours value is dead), runs the portfolio
and builds the summary; its catch arm (HTTP 500) is unreachable in this
model because `predictPortfolio` catches every per-symbol error itself. -/
def GET (o : Oracles) (symbolsParam hoursParam : Option String) :
    GETResponse × List ℤ :=
  let symbols := parseSymbolsParam symbolsParam
  let _hours := parseHoursParam hoursParam
  let pr := predictPortfolio o symbols
  ({ predictions := pr.1
     summary := summarize symbols pr.1
     disclaimer := disclaimerText },
   pr.2)

/-- A technical snapshot with benign mid-range values, for concrete runs. -/
def techSample : TechSnapshot :=
  { currentPrice := 100
    priceChange1d := 0
    volumeRatio := 1
    rsi := 50
    macd := 1
    bbPosition := 1/2
    sma20Ratio := 1
    sma50Ratio := 1
    volatility := 20 }

/-- An oracle pair where both sources succeed (the news batch is empty,
which `analyzeSentiment` must tolerate). -/
def oracleOk : Oracles :=
  { news := fun _ => Except.ok []
    tech := fun _ => some techSample }

/-- An oracle pair whose news source fails the way `fetchGuardianNews`
does on a non-OK Guardian response. -/
def oracleNewsFail : Oracles :=
  { news := fun _ => Except.error "Guardian API error: 500"
    tech := fun _ => some techSample }

/-- An oracle pair whose technical source fails for the symbol "BAD". -/
def oracleTechBad : Oracles :=
  { news := fun _ => Except.ok []
    tech := fun s => if s = "BAD" then none else some techSample }

/-! ### Helper lemmas -/

lemma sentimentStep_eq (s : SentimentSummary) (a : ℚ) (l : List String) :
    sentimentStep s (a, l) = (a + specSentScore s, l ++ specSentReasons s) := by
  unfold sentimentStep specSentScore specSentReasons
  split_ifs <;> first | (simp; ring) | simp

lemma rsiStep_eq (t : TechSnapshot) (a : ℚ) (l : List String) :
    rsiStep t (a, l) = (a + specRsiScore t, l ++ specRsiReasons t) := by
  unfold rsiStep specRsiScore specRsiReasons
  split_ifs <;> first | (simp; ring) | simp

lemma macdStep_eq (t : TechSnapshot) (a : ℚ) (l : List String) :
    macdStep t (a, l) = (a + specMacdScore t, l ++ specMacdReasons t) := by
  unfold macdStep specMacdScore specMacdReasons
  split_ifs <;> first | (simp; ring) | simp

lemma priceStep_eq (t : TechSnapshot) (a : ℚ) (l : List String) :
    priceStep t (a, l) = (a + specPriceScore t, l ++ specPriceReasons t) := by
  unfold priceStep specPriceScore specPriceReasons
  split_ifs <;> first | (simp; ring) | simp

lemma scoreReasons_eq (s : SentimentSummary) (t : TechSnapshot) :
    scoreReasons s t = (specScore s t, specReasons s t) := by
  unfold scoreReasons specScore specReasons
  rw [sentimentStep_eq, rsiStep_eq, macdStep_eq, priceStep_eq]
  unfold volumeStep
  split_ifs <;> simp [List.append_assoc]

lemma make_eq_fuseSpec (s : SentimentSummary) (t : TechSnapshot) :
    makeSimplePrediction s t = fuseSpec s t := by
  simp only [makeSimplePrediction, fuseSpec, decideAction, scoreReasons_eq]
  split_ifs <;> rfl

lemma round2_mono {a b : ℚ} (h : a ≤ b) : round2 a ≤ round2 b := by
  unfold round2
  have hf : (Int.floor (a * 100 + 1/2) : ℤ) ≤ Int.floor (b * 100 + 1/2) :=
    Int.floor_le_floor (by linarith)
  have hq : ((Int.floor (a * 100 + 1/2) : ℤ) : ℚ) ≤
      ((Int.floor (b * 100 + 1/2) : ℤ) : ℚ) := by exact_mod_cast hf
  linarith

lemma round2_half : round2 (1/2) = 1/2 := by
  norm_num [round2]

lemma round2_nine_tenths : round2 (9/10) = 9/10 := by
  norm_num [round2]

lemma decideAction_confidence_bounds (sc : ℚ) :
    1/2 ≤ (decideAction sc).2 ∧ (decideAction sc).2 ≤ 9/10 := by
  unfold decideAction
  split_ifs with h1 h2
  · refine ⟨le_min (by norm_num) (by linarith), min_le_left _ _⟩
  · have habs : |sc + 3| = -(sc + 3) := abs_of_nonpos (by linarith)
    refine ⟨le_min (by norm_num) (by rw [habs]; linarith), min_le_left _ _⟩
  · have habs : |sc| < 3 := abs_lt.mpr ⟨by linarith, by linarith⟩
    have h0 : 0 ≤ |sc| := abs_nonneg sc
    constructor
    · simp only
      linarith
    · simp only
      linarith

lemma confidence_bounds (s : SentimentSummary) (t : TechSnapshot) :
    1/2 ≤ (makeSimplePrediction s t).confidence ∧
      (makeSimplePrediction s t).confidence ≤ 9/10 := by
  have hc : (makeSimplePrediction s t).confidence =
      round2 (decideAction (scoreReasons s t).1).2 := rfl
  have hb := decideAction_confidence_bounds (scoreReasons s t).1
  rw [hc]
  exact ⟨round2_half ▸ round2_mono hb.1, round2_nine_tenths ▸ round2_mono hb.2⟩

lemma predictStock_log (o : Oracles) (symbol : String) :
    (predictStock o symbol).2 = [24] := rfl

lemma predictStock_news_error (o : Oracles) (symbol : String) (e : String)
    (h : o.news 24 = Except.error e) :
    (predictStock o symbol).1 = Except.error e := by
  unfold predictStock
  rw [h]

lemma predictPortfolio_entries (o : Oracles) (symbols : List String) :
    (predictPortfolio o symbols).1 =
      symbols.map (fun sym => toEntry sym (predictStock o sym).1) := by
  induction symbols with
  | nil => rfl
  | cons s rest ih => simp [predictPortfolio, ih]

lemma predictPortfolio_log (o : Oracles) (symbols : List String) :
    (predictPortfolio o symbols).2 = List.replicate symbols.length 24 := by
  induction symbols with
  | nil => rfl
  | cons s rest ih =>
    simp [predictPortfolio, predictStock_log, List.replicate_succ, ih]

lemma predictPortfolio_length (o : Oracles) (symbols : List String) :
    (predictPortfolio o symbols).1.length = symbols.length := by
  rw [predictPortfolio_entries]
  exact List.length_map _ _

/-- Boolean `p.prediction === a` on a successful prediction. -/
def predAction (a : Action) (p : Prediction) : Bool :=
  p.prediction = a

lemma filter_action_okPreds (a : Action) (entries : List PEntry) :
    (entries.filter (entryHasAction a)).length =
      ((okPreds entries).filter (predAction a)).length := by
  induction entries with
  | nil => rfl
  | cons e rest ih =>
    cases e with
    | ok p =>
      by_cases hp : p.prediction = a
      · simp [okPreds, entryHasAction, predAction, List.filter, hp, ih]
      · simp [okPreds, entryHasAction, predAction, List.filter, hp, ih]
    | err s m => simp [okPreds, entryHasAction, List.filter, ih]

lemma predictStock_ok_confidence (o : Oracles) (s : String) (p : Prediction)
    (h : (predictStock o s).1 = Except.ok p) : 1/2 ≤ p.confidence := by
  unfold predictStock at h
  rcases hn : o.news 24 with e | news
  · rw [hn] at h
    simp at h
  · rw [hn] at h
    rcases ht : o.tech s with _ | td
    · rw [ht] at h
      simp at h
    · rw [ht] at h
      simp only [Except.ok.injEq] at h
      have hc : p.confidence =
          (makeSimplePrediction (analyzeSentiment news) td).confidence := by
        rw [← h]
      rw [hc]
      exact (confidence_bounds _ _).1

lemma portfolio_ok_confidence (o : Oracles) (symbols : List String) :
    ∀ p ∈ okPreds (predictPortfolio o symbols).1, 1/2 ≤ p.confidence := by
  intro p hp
  rw [predictPortfolio_entries] at hp
  unfold okPreds at hp
  rw [List.mem_filterMap] at hp
  obtain ⟨e, he, hmatch⟩ := hp
  rw [List.mem_map] at he
  obtain ⟨sym, _, htoe⟩ := he
  cases e with
  | err a b => simp at hmatch
  | ok p1 =>
    simp only [Option.some.injEq] at hmatch
    subst hmatch
    have hok : (predictStock o sym).1 = Except.ok p1 := by
      rcases hr : (predictStock o sym).1 with e0 | p0
      · rw [hr] at htoe
        simp [toEntry] at htoe
      · rw [hr] at htoe
        simp only [toEntry, PEntry.ok.injEq] at htoe
        rw [htoe]
    exact predictStock_ok_confidence o sym p1 hok

lemma okPreds_filter_confidence (entries : List PEntry)
    (h : ∀ p ∈ okPreds entries, 1/2 ≤ p.confidence) :
    entries.filter entryHasConfidence = entries.filter entryIsOk := by
  induction entries with
  | nil => rfl
  | cons e rest ih =>
    have hrest : ∀ p ∈ okPreds rest, 1/2 ≤ p.confidence := by
      intro p hp
      refine h p ?_
      cases e with
      | ok p0 => simp [okPreds, List.filterMap_cons]; right; simpa [okPreds] using hp
      | err s m => simpa [okPreds, List.filterMap_cons] using hp
    cases e with
    | ok p0 =>
      have hp0 : 1/2 ≤ p0.confidence := by
        refine h p0 ?_
        simp [okPreds, List.filterMap_cons]
      have hne : p0.confidence ≠ 0 := by
        intro h0; rw [h0] at hp0; norm_num at hp0
      simp [List.filter, entryHasConfidence, entryIsOk, hne, ih hrest]
    | err s m =>
      simp [List.filter, entryHasConfidence, entryIsOk, ih hrest]

lemma filter_ok_confidences (entries : List PEntry) :
    (entries.filter entryIsOk).map entryConfidence =
      (okPreds entries).map (fun p => p.confidence) := by
  induction entries with
  | nil => rfl
  | cons e rest ih =>
    cases e with
    | ok p => simp [List.filter, entryIsOk, entryConfidence, okPreds, ih]
    | err s m => simp [List.filter, entryIsOk, okPreds, ih]

lemma filter_ok_length (entries : List PEntry) :
    (entries.filter entryIsOk).length = (okPreds entries).length := by
  induction entries with
  | nil => rfl
  | cons e rest ih =>
    cases e with
    | ok p => simp [List.filter, entryIsOk, okPreds, ih]
    | err s m => simp [List.filter, entryIsOk, okPreds, ih]

lemma summarize_avgConfidence (symbols : List String)
    (entries : List PEntry)
    (h : ∀ p ∈ okPreds entries, 1/2 ≤ p.confidence) :
    (summarize symbols entries).avgConfidence =
      (if okPreds entries = [] then 0
       else qsum ((okPreds entries).map (fun p => p.confidence)) /
         ((okPreds entries).length : ℚ)) := by
  unfold summarize
  simp only [okPreds_filter_confidence entries h, filter_ok_confidences,
    filter_ok_length]
  by_cases hnil : okPreds entries = []
  · simp [hnil, jdiv, jorZero]
  · have hlen : ((okPreds entries).length : ℚ) ≠ 0 := by
      simpa [List.length_eq_zero] using hnil
    simp [hnil, jdiv, hlen, jorZero]

/-- The sentiment summary of the §8 scenario: `averageSentiment = 0.3`
(the other fields do not enter the fuser). -/
def sentScenario : SentimentSummary :=
  { avgSentiment := 3/10
    sentimentVolatility := JSNum.val 0
    positiveNewsRatio := 0
    negativeNewsRatio := 0
    newsVolume := 0 }

/-- The technical snapshot of the §8 scenario: `rsi 25, macd 0.5,
priceChange1Day 3, volumeRatio 2.0` (the other fields do not enter the
score). -/
def techScenario : TechSnapshot :=
  { currentPrice := 100
    priceChange1d := 3
    volumeRatio := 2
    rsi := 25
    macd := 1/2
    bbPosition := 1/2
    sma20Ratio := 1
    sma50Ratio := 1
    volatility := 20 }

/-- A benign snapshot whose `macd` is exactly 0. -/
def techMacdZero : TechSnapshot :=
  { techSample with macd := 0 }

/-- A benign snapshot whose `rsi` is exactly 30. -/
def techRsi30 : TechSnapshot :=
  { techSample with rsi := 30 }

/-! ### Claim theorems -/

/-- C1: for every sentiment summary and technical snapshot,
`makeSimplePrediction` computes exactly the §4.3 score/decision pipeline
(`fuseSpec`, modelled from the spec's steps 1–8); and on the scenario
`averageSentiment 0.3, rsi 25, macd 0.5, priceChange1Day 3,
volumeRatio 2.0` the accumulated score is 6.5, the action is BUY and the
confidence is exactly 0.9. -/
theorem C1_fuser_follows_spec :
    (∀ (s : SentimentSummary) (t : TechSnapshot),
      makeSimplePrediction s t = fuseSpec s t) ∧
    (scoreReasons sentScenario techScenario).1 = 13/2 ∧
    (makeSimplePrediction sentScenario techScenario).action = Action.BUY ∧
    (makeSimplePrediction sentScenario techScenario).confidence = 9/10 := by
  refine ⟨make_eq_fuseSpec, ?_, ?_, ?_⟩
  · norm_num [scoreReasons, sentimentStep, rsiStep, macdStep, priceStep,
      volumeStep, qsign, sentScenario, techScenario]
  · norm_num [makeSimplePrediction, scoreReasons, sentimentStep, rsiStep,
      macdStep, priceStep, volumeStep, qsign, decideAction, round2,
      sentScenario, techScenario]
  · norm_num [makeSimplePrediction, scoreReasons, sentimentStep, rsiStep,
      macdStep, priceStep, volumeStep, qsign, decideAction, round2,
      sentScenario, techScenario]

/-- C2 counterexample: on the empty news list, `analyzeSentiment` does not
return 0 for every field — `sentimentVolatility` is `NaN` (the standard
deviation of the source is unguarded, `sqrt(0/0)`), so the claim that all
five fields are exactly 0 fails. -/
theorem C2_counterexample :
    (analyzeSentiment []).sentimentVolatility = JSNum.nan ∧
      JSNum.nan ≠ JSNum.val 0 := by
  exact ⟨rfl, by simp⟩

/-- C2 amended: on the empty news list, `averageSentiment`,
`positiveNewsRatio`, `negativeNewsRatio` and `newsVolume` are exactly 0
(their divisions are `|| 0`-guarded), but `sentimentVolatility` is `NaN`,
not 0. -/
theorem C2_empty_news_defaults :
    analyzeSentiment [] =
      { avgSentiment := 0
        sentimentVolatility := JSNum.nan
        positiveNewsRatio := 0
        negativeNewsRatio := 0
        newsVolume := 0 } := rfl

/-- C6: for every technical snapshot with `macd` exactly 0 and every
running `(score, reasons)` state, the MACD factor takes the bearish
branch: score minus 1 and the bearish reason appended — there is no
neutral branch. -/
theorem C6_macd_zero_bearish :
    ∀ (t : TechSnapshot) (st : ℚ × List String), t.macd = 0 →
      macdStep t st = (st.1 - 1, st.2 ++ ["MACD shows bearish momentum"]) := by
  intro t st h
  unfold macdStep
  rw [h]
  norm_num

/-- C6 witness: a concrete snapshot with `macd = 0` at the concrete state
`(5, [])`. -/
theorem C6_macd_zero_bearish_witness :
    macdStep techMacdZero (5, []) = (4, ["MACD shows bearish momentum"]) := by
  have h := C6_macd_zero_bearish techMacdZero (5, []) rfl
  rw [h]
  norm_num

/-- C7: for every technical snapshot with `rsi` exactly 30 or exactly 70
and every running `(score, reasons)` state, the RSI factor fires neither
the oversold nor the overbought branch (both comparisons are strict). -/
theorem C7_rsi_boundaries_excluded :
    ∀ (t : TechSnapshot) (st : ℚ × List String), t.rsi = 30 ∨ t.rsi = 70 →
      rsiStep t st = st := by
  intro t st h
  unfold rsiStep
  rcases h with h | h <;> rw [h] <;> norm_num

/-- C7 witness: a concrete snapshot with `rsi = 30` at the concrete state
`(2, ["x"])`. -/
theorem C7_rsi_boundaries_excluded_witness :
    rsiStep techRsi30 (2, ["x"]) = (2, ["x"]) :=
  C7_rsi_boundaries_excluded techRsi30 (2, ["x"]) (Or.inl rfl)

/-- C9: for every sentiment summary and technical snapshot, the returned
reasoning is the first 3 entries of the reason list accumulated in §4.3
step order (sentiment, RSI, MACD, price momentum, volume — `specReasons`
is that concatenation, never re-sorted), and its length is at most 3. -/
theorem C9_reasoning_order_and_cap :
    ∀ (s : SentimentSummary) (t : TechSnapshot),
      (makeSimplePrediction s t).reasoning = (specReasons s t).take 3 ∧
      (makeSimplePrediction s t).reasoning.length ≤ 3 := by
  intro s t
  have h1 : (makeSimplePrediction s t).reasoning = (specReasons s t).take 3 := by
    simp only [makeSimplePrediction, scoreReasons_eq]
  refine ⟨h1, ?_⟩
  rw [h1]
  exact List.length_take_le 3 (specReasons s t)

/-- C10: for every sentiment summary and technical snapshot, the rounded
confidence lies in `[0.5, 0.9]` — tighter than the `[0, 1]` range of the
spec's data model. -/
theorem C10_confidence_in_half_to_ninety :
    ∀ (s : SentimentSummary) (t : TechSnapshot),
      1/2 ≤ (makeSimplePrediction s t).confidence ∧
      (makeSimplePrediction s t).confidence ≤ 9/10 :=
  fun s t => confidence_bounds s t

/-- C3 counterexample: a two-symbol portfolio performs two news fetches,
not one (the fetch sits inside `predictStock`, re-run per symbol); and a
request whose hours parameter is 48 still fetches with the hard-coded
24-hour window — so the news batch is neither fetched exactly once per
request nor fetched with the caller-supplied lookback. -/
theorem C3_counterexample :
    (predictPortfolio oracleOk ["AAPL", "GOOGL"]).2 = [24, 24] ∧
    (GET oracleOk none (some "48")).2 = [24, 24, 24] := by
  exact ⟨by decide, by decide⟩

/-- C3 amended: the news batch is fetched once per symbol (not once per
request), always with the hard-coded 24-hour window; the caller-supplied
hours parameter is parsed by the handler but never used, so the response
does not depend on it. -/
theorem C3_news_fetch_per_symbol :
    (∀ (o : Oracles) (symbols : List String),
      (predictPortfolio o symbols).2 = List.replicate symbols.length 24) ∧
    (∀ (o : Oracles) (sp hp hp2 : Option String),
      GET o sp hp = GET o sp hp2) := by
  refine ⟨fun o symbols => predictPortfolio_log o symbols, ?_⟩
  intro o sp hp hp2
  rfl

/-- C4 counterexample: with a failing news source, the single-symbol
portfolio output is the surfaced error marker — no symbol is scored with
neutral sentiment and the failure is not recovered locally. -/
theorem C4_counterexample :
    (predictPortfolio oracleNewsFail ["AAPL"]).1 =
      [PEntry.err "AAPL" "Failed to predict: Guardian API error: 500"] ∧
    okPreds (predictPortfolio oracleNewsFail ["AAPL"]).1 = [] := by
  exact ⟨by decide, by decide⟩

/-- C4 amended: when the news source fails, `predictStock` rethrows, so
every symbol of the portfolio is recorded as a `{symbol, error}` marker
carrying the news error; the portfolio run itself continues to completion
(one marker per symbol, in order), but no neutral-sentiment scoring
happens and the failure is surfaced per symbol. -/
theorem C4_news_failure_surfaced :
    ∀ (o : Oracles) (e : String) (symbols : List String),
      o.news 24 = Except.error e →
      (predictPortfolio o symbols).1 =
        symbols.map (fun sym =>
          PEntry.err sym ("Failed to predict: " ++ e)) := by
  intro o e symbols h
  rw [predictPortfolio_entries]
  refine List.map_congr_left ?_
  intro sym _
  rw [predictStock_news_error o sym e h]
  rfl

/-- C4 witness: the failing news oracle on a concrete two-symbol
portfolio. -/
theorem C4_news_failure_surfaced_witness :
    (predictPortfolio oracleNewsFail ["MSFT", "TSLA"]).1 =
      [PEntry.err "MSFT" "Failed to predict: Guardian API error: 500",
       PEntry.err "TSLA" "Failed to predict: Guardian API error: 500"] := by
  have h := C4_news_failure_surfaced oracleNewsFail "Guardian API error: 500"
    ["MSFT", "TSLA"] rfl
  rw [h]
  rfl

/-- C5: for every oracle pair and symbol list, the portfolio output has
exactly one entry per requested symbol in input order (a failing symbol
becoming its `{symbol, error}` marker via `toEntry`); `totalSymbols` is
the requested count, the BUY/SELL/HOLD counts range over successful
predictions only, and `avgConfidence` is the mean confidence of the
successful predictions, 0 when none succeeded. -/
theorem C5_per_symbol_isolation :
    ∀ (o : Oracles) (symbols : List String),
      (predictPortfolio o symbols).1 =
        symbols.map (fun sym => toEntry sym (predictStock o sym).1) ∧
      (predictPortfolio o symbols).1.length = symbols.length ∧
      (summarize symbols (predictPortfolio o symbols).1).totalSymbols =
        symbols.length ∧
      (summarize symbols (predictPortfolio o symbols).1).buySignals =
        ((okPreds (predictPortfolio o symbols).1).filter
          (predAction Action.BUY)).length ∧
      (summarize symbols (predictPortfolio o symbols).1).sellSignals =
        ((okPreds (predictPortfolio o symbols).1).filter
          (predAction Action.SELL)).length ∧
      (summarize symbols (predictPortfolio o symbols).1).holdSignals =
        ((okPreds (predictPortfolio o symbols).1).filter
          (predAction Action.HOLD)).length ∧
      (summarize symbols (predictPortfolio o symbols).1).avgConfidence =
        (if okPreds (predictPortfolio o symbols).1 = [] then 0
         else qsum ((okPreds (predictPortfolio o symbols).1).map
             (fun p => p.confidence)) /
           ((okPreds (predictPortfolio o symbols).1).length : ℚ)) := by
  intro o symbols
  refine ⟨predictPortfolio_entries o symbols,
    predictPortfolio_length o symbols, rfl,
    filter_action_okPreds Action.BUY _,
    filter_action_okPreds Action.SELL _,
    filter_action_okPreds Action.HOLD _,
    summarize_avgConfidence symbols _ (portfolio_ok_confidence o symbols)⟩

/-- C8 counterexample: a request with no symbol list and a non-positive
hours parameter is not rejected — the handler substitutes the default
three-symbol portfolio, performs three news fetches and returns three
predictions. -/
theorem C8_counterexample :
    (GET oracleOk none (some "-5")).1.predictions.length = 3 ∧
    (GET oracleOk none (some "-5")).2 = [24, 24, 24] := by
  exact ⟨by decide, by decide⟩

/-- C8 amended: the handler performs no request validation at all — an
absent symbols parameter falls back to the default list
`["AAPL", "GOOGL", "MSFT"]` and is processed (three news fetches occur),
the hours parameter never influences the response, and in general every
request produces one prediction entry per parsed symbol. -/
theorem C8_no_request_validation :
    (∀ (o : Oracles) (sp hp : Option String),
      (GET o sp hp).1.predictions.length = (parseSymbolsParam sp).length) ∧
    parseSymbolsParam none = ["AAPL", "GOOGL", "MSFT"] ∧
    (∀ (o : Oracles) (sp hp : Option String), GET o sp hp = GET o sp none) ∧
    (∀ (o : Oracles) (hp : Option String),
      (GET o none hp).2 = [24, 24, 24]) := by
  refine ⟨?_, rfl, ?_, ?_⟩
  · intro o sp hp
    exact predictPortfolio_length o (parseSymbolsParam sp)
  · intro o sp hp
    rfl
  · intro o hp
    rw [show (GET o none hp).2 = (predictPortfolio o ["AAPL", "GOOGL", "MSFT"]).2
      from rfl, predictPortfolio_log]
    rfl

end StockPred
